import Mathlib

/-!
Shallow embedding of the request handlers of the Poor People Foundation
backend (`backend/server.js`) over the relational schema created by
`backend/database/db.js`.

Database tables become lists of row structures; a handler becomes a pure
function from the current database state (plus the request data and the
abstracted cryptographic primitives: bcrypt compare/hash, jwt sign/verify,
the sha256 digest) to a result structure carrying the HTTP status, the
error message, the response body and the successor database state.
MySQL auto-increment ids are modelled as `length + 1`.
-/

namespace PPF

/-- A row of the `users` table (db.js: unique email, hashed password). -/
structure User where
  id : Nat
  first_name : String
  last_name : String
  email : String
  password : String
deriving Repr, DecidableEq

/-- A row of the `bios` table (db.js: `user_id` foreign key with a unique key). -/
structure Bio where
  id : Nat
  user_id : Nat
  bio : String
deriving Repr, DecidableEq

/-- One review object of the embedded `reviews` JSON column of `blogs`
(server.js builds `\x7bid, author, rating, date\x7d` objects). -/
structure Review where
  id : Nat
  author : String
  rating : ℚ
  date : String
deriving Repr, DecidableEq

/-- A row of the `blogs` table; the parsed content of the embedded JSON
`reviews` column is carried as a list. The `date` column is an ordinal. -/
structure Blog where
  id : Nat
  title : String
  description : String
  content : String
  date : Nat
  category : String
  image_url : String
  reviews : List Review
deriving Repr, DecidableEq

/-- A row of the normalized `blog_reviews` table referenced by
`GET /api/blogs/:id` (server.js line 295). No such table is created by
db.js. -/
structure BlogReview where
  id : Nat
  blog_id : Nat
  author : String
  rating : ℚ
  created_at : Nat
deriving Repr, DecidableEq

/-- A row of the `Donations` table (db.js). -/
structure Donation where
  id : Nat
  amount : ℚ
  frequency : String
  email : String
  card_last_four : String
  cardholder_name : String
  country : String
  payment_status : String
deriving Repr, DecidableEq

/-- A row of the `PaymentMethods` table (db.js: cascade-delete foreign key
to `Donations`). -/
structure PaymentMethod where
  id : Nat
  donation_id : Nat
  card_type : String
  card_number_hash : String
  expiry_month : Nat
  expiry_year : Nat
  cvv_hash : String
deriving Repr, DecidableEq

/-- A row of the `volunteers` table (db.js: unique key on email). -/
structure Volunteer where
  id : Nat
  first_name : String
  last_name : String
  email : String
  phone : String
  interest_area : String
  availability : String
  experience : Option String
deriving Repr, DecidableEq

/-- The database state. `blog_reviews` is an `Option`: `none` models the
table being absent (db.js never creates it), in which case any query
against it raises an error. -/
structure DB where
  users : List User
  bios : List Bio
  blogs : List Blog
  blog_reviews : Option (List BlogReview)
  donations : List Donation
  paymentMethods : List PaymentMethod
  volunteers : List Volunteer
deriving Repr, DecidableEq

/-- The state produced by the schema setup in db.js: every `CREATE TABLE IF
NOT EXISTS` yields an empty table, the `ALTER TABLE` adds the embedded
`reviews` JSON column to `blogs`, and no `blog_reviews` table is ever
created. -/
def initDB : DB :=
  { users := [], bios := [], blogs := [], blog_reviews := none,
    donations := [], paymentMethods := [], volunteers := [] }

/-! ### Authentication middleware (server.js lines 26-41) -/

/-- The claims payload signed into a token at login: `\x7buserId, email\x7d`. -/
structure Claims where
  userId : Nat
  email : String
deriving Repr, DecidableEq

/-- JavaScript `String.prototype.split(' ')` on the character list: empty
input yields one empty field, and every space starts a new field. -/
def splitCharsOnSpace : List Char → List (List Char)
  | [] => [[]]
  | c :: cs =>
    let rest := splitCharsOnSpace cs
    if c = ' ' then [] :: rest
    else
      match rest with
      | [] => [c] :: []
      | r :: rs => (c :: r) :: rs

/-- Token extraction `authHeader && authHeader.split(' ')[1]` followed by
the `if (!token)` falsiness test (server.js lines 27-30): `none` exactly
when the middleware responds 401. -/
def extractToken (authHeader : Option String) : Option String :=
  match authHeader with
  | none => none
  | some h =>
    if h = "" then none
    else
      match (splitCharsOnSpace h.toList).get? 1 with
      | none => none
      | some t => if t = [] then none else some (String.mk t)

/-- Response of a route guarded by the middleware: status, error message,
and the downstream handler's body when it ran. -/
structure AuthResp (α : Type) where
  status : Nat
  error : Option String
  body : Option α
deriving Repr, DecidableEq

/-- server.js `authenticateToken`: 401 when no bearer token is present, 403
when `jwt.verify` (abstracted as `verify`) rejects it, otherwise the
verified claims are attached and the downstream handler `next` runs. -/
def authenticateToken (verify : String → Option Claims) (authHeader : Option String)
    (next : Claims → AuthResp α) : AuthResp α :=
  match extractToken authHeader with
  | none => { status := 401, error := some "Access token required", body := none }
  | some token =>
    match verify token with
    | none => { status := 403, error := some "Invalid token", body := none }
    | some user => next user

/-! ### POST /api/signup (server.js lines 44-91) -/

/-- Request body of `POST /api/signup`; a JSON field that is absent or the
empty string is falsy, so absence is modelled as `""`. -/
structure SignupReq where
  firstName : String
  lastName : String
  email : String
  password : String
  confirmPassword : String
deriving Repr, DecidableEq

/-- Result of the signup handler. -/
structure SignupResult where
  status : Nat
  error : Option String
  userId : Option Nat
  db : DB
deriving Repr, DecidableEq

/-- server.js signup handler: required-field check, password confirmation,
minimum length 8, duplicate-email check against `users`, then the INSERT.
`hashPw` abstracts `bcrypt.hash`. -/
def signup (hashPw : String → String) (db : DB) (req : SignupReq) : SignupResult :=
  if req.firstName = "" ∨ req.lastName = "" ∨ req.email = "" ∨
      req.password = "" ∨ req.confirmPassword = "" then
    { status := 400, error := some "All fields are required", userId := none, db := db }
  else if req.password ≠ req.confirmPassword then
    { status := 400, error := some "Passwords do not match", userId := none, db := db }
  else if req.password.length < 8 then
    { status := 400, error := some "Password must be at least 8 characters",
      userId := none, db := db }
  else if (db.users.filter (fun u => u.email = req.email)).length > 0 then
    { status := 400, error := some "Email already in use", userId := none, db := db }
  else
    let uid := db.users.length + 1
    { status := 201, error := none, userId := some uid,
      db := { db with users := db.users ++
        [{ id := uid, first_name := req.firstName, last_name := req.lastName,
           email := req.email, password := hashPw req.password }] } }

/-! ### POST /api/login (server.js lines 94-142) -/

/-- The redacted user projection returned on successful login. -/
structure UserData where
  id : Nat
  firstName : String
  lastName : String
  email : String
deriving Repr, DecidableEq

/-- Result of the login handler. -/
structure LoginResult where
  status : Nat
  error : Option String
  user : Option UserData
  token : Option String
deriving Repr, DecidableEq

/-- server.js login handler: look the user up by email, compare the password
against the stored bcrypt hash (`compare` abstracts `bcrypt.compare`), and on
success sign a token over `\x7buserId, email\x7d` (`sign` abstracts `jwt.sign`).
Both failure branches return 401 with the same message. -/
def login (compare : String → String → Bool) (sign : Nat → String → String)
    (db : DB) (email password : String) : LoginResult :=
  if email = "" ∨ password = "" then
    { status := 400, error := some "Email and password are required",
      user := none, token := none }
  else
    match db.users.find? (fun u => u.email = email) with
    | none =>
      { status := 401, error := some "Invalid email or password",
        user := none, token := none }
    | some u =>
      if compare password u.password then
        { status := 200, error := none,
          user := some { id := u.id, firstName := u.first_name,
                         lastName := u.last_name, email := u.email },
          token := some (sign u.id u.email) }
      else
        { status := 401, error := some "Invalid email or password",
          user := none, token := none }

/-! ### PUT /api/user/bio (server.js lines 175-204) -/

/-- Result of a handler whose success body is only a message. -/
structure HandlerResult where
  status : Nat
  error : Option String
  db : DB
deriving Repr, DecidableEq

/-- server.js bio upsert: `SELECT * FROM bios WHERE user_id = (SELECT id
FROM users WHERE email = ?)`, then UPDATE when a row exists and INSERT
otherwise. A `none` subquery result (no such user) matches no row in the
check and in the UPDATE, and makes the INSERT violate `user_id NOT NULL`,
which the catch turns into a 500. -/
def updateBio (db : DB) (email bioText : String) : HandlerResult :=
  let uid? := (db.users.find? (fun u => u.email = email)).map (fun u => u.id)
  let checkBio :=
    match uid? with
    | none => ([] : List Bio)
    | some uid => db.bios.filter (fun b => b.user_id = uid)
  if checkBio.length > 0 then
    { status := 200, error := none,
      db := { db with bios := db.bios.map (fun b =>
        if some b.user_id = uid? then { b with bio := bioText } else b) } }
  else
    match uid? with
    | some uid =>
      { status := 200, error := none,
        db := { db with bios := db.bios ++
          [{ id := db.bios.length + 1, user_id := uid, bio := bioText }] } }
    | none => { status := 500, error := some "Internal server error", db := db }

/-! ### PUT /api/user/password (server.js lines 207-250) -/

/-- server.js password change: required fields, minimum length 8 for the new
password, user lookup by email, bcrypt comparison of the current password,
then re-hash and UPDATE by user id. -/
def updatePassword (compare : String → String → Bool) (hashPw : String → String)
    (db : DB) (email currentPassword newPassword : String) : HandlerResult :=
  if currentPassword = "" ∨ newPassword = "" then
    { status := 400, error := some "Both current and new password are required", db := db }
  else if newPassword.length < 8 then
    { status := 400, error := some "New password must be at least 8 characters", db := db }
  else
    match db.users.find? (fun u => u.email = email) with
    | none => { status := 404, error := some "User not found", db := db }
    | some u =>
      if compare currentPassword u.password then
        { status := 200, error := none,
          db := { db with users := db.users.map (fun v =>
            if v.id = u.id then { v with password := hashPw newPassword } else v) } }
      else
        { status := 401, error := some "Current password is incorrect", db := db }

/-! ### GET /api/blogs (server.js lines 255-284) -/

/-- Insert a blog into a list already sorted by date descending. -/
def insertByDateDesc (b : Blog) : List Blog → List Blog
  | [] => [b]
  | c :: cs => if c.date ≤ b.date then b :: c :: cs else c :: insertByDateDesc b cs

/-- `ORDER BY date DESC` of the blog-listing query. -/
def sortByDateDesc : List Blog → List Blog
  | [] => []
  | b :: bs => insertByDateDesc b (sortByDateDesc bs)

/-- server.js lines 262-264: `reviews.length > 0 ? reviews.reduce((sum, r) =>
sum + r.rating, 0) / reviews.length : 0`. -/
def averageRating (reviews : List Review) : ℚ :=
  if reviews.length > 0 then (reviews.map (fun r => r.rating)).sum / reviews.length else 0

/-- One element of the blog-listing response: the blog row spread together
with the parsed reviews, the derived aggregates, and the reformatted date. -/
structure FormattedBlog where
  id : Nat
  title : String
  description : String
  content : String
  category : String
  image_url : String
  reviews : List Review
  average_rating : ℚ
  review_count : Nat
  date : String
deriving Repr, DecidableEq

/-- server.js blog listing: select all blogs ordered by date descending and
map each to its formatted form. `fmt` abstracts `toLocaleDateString`. -/
def getBlogs (fmt : Nat → String) (db : DB) : List FormattedBlog :=
  (sortByDateDesc db.blogs).map (fun b =>
    { id := b.id, title := b.title, description := b.description,
      content := b.content, category := b.category, image_url := b.image_url,
      reviews := b.reviews, average_rating := averageRating b.reviews,
      review_count := b.reviews.length, date := fmt b.date })

/-! ### GET /api/blogs/:id (server.js lines 287-319) -/

/-- Result of the blog-detail handler. The attached reviews are rows of the
`blog_reviews` table, not the embedded column. -/
structure BlogDetailResult where
  status : Nat
  error : Option String
  blog : Option Blog
  reviews : Option (List BlogReview)
deriving Repr, DecidableEq

/-- server.js blog detail: 404 when no `blogs` row has the id; otherwise
`SELECT * FROM blog_reviews WHERE blog_id = ?` — when the database has no
`blog_reviews` table (db.js never creates one) that query raises and the
catch answers 500. -/
def getBlogById (db : DB) (id : Nat) : BlogDetailResult :=
  match db.blogs.find? (fun b => b.id = id) with
  | none => { status := 404, error := some "Blog not found", blog := none, reviews := none }
  | some b =>
    match db.blog_reviews with
    | none =>
      { status := 500, error := some "Failed to fetch blog", blog := none, reviews := none }
    | some tbl =>
      { status := 200, error := none, blog := some b,
        reviews := some (tbl.filter (fun r => r.blog_id = id)) }

/-! ### POST /api/blogs/:id/reviews (server.js lines 350-394) -/

/-- Success body of the add-review handler. -/
structure ReviewBody where
  reviews : List Review
  average_rating : ℚ
  review_count : Nat
deriving Repr, DecidableEq

/-- Result of the add-review handler. -/
structure AddReviewResult where
  status : Nat
  error : Option String
  body : Option ReviewBody
  db : DB
deriving Repr, DecidableEq

/-- server.js add review: reject unless the rating is a number in [1,5]
(`none` models a non-number body field); synthesize a review from
`Date.now()` (`now`) and `toLocaleDateString()` (`today`), defaulting a
falsy author to "Anonymous"; read the blog's current reviews (an absent row
yields `[]` via `blogs[0]?.reviews`), append, write the whole array back to
every row with that id, and return the recomputed aggregates. -/
def addReview (db : DB) (blogId : Nat) (author : String) (rating : Option ℚ)
    (now : Nat) (today : String) : AddReviewResult :=
  match rating with
  | none =>
    { status := 400, error := some "Rating must be a number between 1 and 5",
      body := none, db := db }
  | some r =>
    if r < 1 ∨ 5 < r then
      { status := 400, error := some "Rating must be a number between 1 and 5",
        body := none, db := db }
    else
      let newReview : Review :=
        { id := now, author := if author = "" then "Anonymous" else author,
          rating := r, date := today }
      let currentReviews :=
        match db.blogs.find? (fun b => b.id = blogId) with
        | none => []
        | some b => b.reviews
      let updatedReviews := currentReviews ++ [newReview]
      { status := 201, error := none,
        body := some
          { reviews := updatedReviews,
            average_rating := (updatedReviews.map (fun v => v.rating)).sum / updatedReviews.length,
            review_count := updatedReviews.length },
        db := { db with blogs := db.blogs.map (fun b =>
          if b.id = blogId then { b with reviews := updatedReviews } else b) } }

/-! ### POST /api/donations (server.js lines 398-450) -/

/-- The nested `cardInfo` object of a donation request. An absent `cardType`
is modelled as `""` (falsy, so the handler substitutes "visa"). -/
structure CardInfo where
  cardNumber : String
  cardType : String
  expiryMonth : Nat
  expiryYear : Nat
  cvv : String
deriving Repr, DecidableEq

/-- Request body of `POST /api/donations`. `amount` is falsy exactly when 0;
`cardInfo := none` models an absent object. -/
structure DonationReq where
  amount : ℚ
  frequency : String
  email : String
  cardInfo : Option CardInfo
  cardholderName : String
  country : String
deriving Repr, DecidableEq

/-- Result of the donation handler, tracking whether a pool connection was
acquired and whether it was released. -/
structure DonationResult where
  status : Nat
  error : Option String
  donationId : Option Nat
  db : DB
  connAcquired : Bool
  connReleased : Bool
deriving Repr, DecidableEq

/-- JavaScript `s.slice(-4)`: the last four characters, or all of a shorter
string. -/
def sliceLast4 (s : String) : String := String.mk (s.toList.drop (s.length - 4))

/-- server.js donation handler: validate the required fields, acquire a
connection and begin a transaction, INSERT the Donation then the
PaymentMethod (hashing card number and cvv with `hashD`, abstracting
sha256), and commit; when either INSERT fails (`failDonationInsert`,
`failPaymentInsert`) the transaction is rolled back — so the database is
unchanged — the connection is released, and the outer catch answers 500.
On success the connection is also released and the handler answers 201. -/
def createDonation (hashD : String → String) (db : DB) (req : DonationReq)
    (failDonationInsert failPaymentInsert : Bool) : DonationResult :=
  if req.amount = 0 ∨ req.email = "" ∨ req.cardInfo = none ∨
      req.cardholderName = "" ∨ req.country = "" then
    { status := 400, error := some "Missing required fields", donationId := none,
      db := db, connAcquired := false, connReleased := false }
  else
    match req.cardInfo with
    | none =>
      { status := 400, error := some "Missing required fields", donationId := none,
        db := db, connAcquired := false, connReleased := false }
    | some ci =>
      if failDonationInsert then
        { status := 500, error := some "Failed to process donation", donationId := none,
          db := db, connAcquired := true, connReleased := true }
      else if failPaymentInsert then
        { status := 500, error := some "Failed to process donation", donationId := none,
          db := db, connAcquired := true, connReleased := true }
      else
        let did := db.donations.length + 1
        let donation : Donation :=
          { id := did, amount := req.amount, frequency := req.frequency,
            email := req.email, card_last_four := sliceLast4 ci.cardNumber,
            cardholder_name := req.cardholderName, country := req.country,
            payment_status := "completed" }
        let pm : PaymentMethod :=
          { id := db.paymentMethods.length + 1, donation_id := did,
            card_type := if ci.cardType = "" then "visa" else ci.cardType,
            card_number_hash := hashD ci.cardNumber,
            expiry_month := ci.expiryMonth, expiry_year := ci.expiryYear,
            cvv_hash := hashD ci.cvv }
        { status := 201, error := none, donationId := some did,
          db := { db with donations := db.donations ++ [donation],
                          paymentMethods := db.paymentMethods ++ [pm] },
          connAcquired := true, connReleased := true }

/-! ### POST /api/volunteers (server.js lines 571-606) -/

/-- Request body of `POST /api/volunteers`; `experience` is optional and
falsy (`""`) is stored as NULL. -/
structure VolunteerReq where
  firstName : String
  lastName : String
  email : String
  phone : String
  interest : String
  availability : String
  experience : String
deriving Repr, DecidableEq

/-- Result of the volunteer handler. -/
structure VolunteerResult where
  status : Nat
  error : Option String
  id : Option Nat
  db : DB
deriving Repr, DecidableEq

/-- server.js volunteer handler: required-field validation, then the INSERT;
the unique key on `volunteers.email` (db.js) makes the INSERT raise
ER_DUP_ENTRY exactly when a row with the same email exists, which the catch
maps to a 400 "Email already exists" response. -/
def createVolunteer (db : DB) (req : VolunteerReq) : VolunteerResult :=
  if req.firstName = "" ∨ req.lastName = "" ∨ req.email = "" ∨
      req.phone = "" ∨ req.interest = "" ∨ req.availability = "" then
    { status := 400, error := some "Missing required fields", id := none, db := db }
  else if db.volunteers.any (fun v => v.email = req.email) then
    { status := 400, error := some "Email already exists", id := none, db := db }
  else
    let vid := db.volunteers.length + 1
    { status := 201, error := none, id := some vid,
      db := { db with volunteers := db.volunteers ++
        [{ id := vid, first_name := req.firstName, last_name := req.lastName,
           email := req.email, phone := req.phone, interest_area := req.interest,
           availability := req.availability,
           experience := if req.experience = "" then none else some req.experience }] } }

/-! ### Concrete states used to exercise the handlers -/

/-- A blog whose embedded reviews column holds ratings 4 and 2. -/
def blogRated : Blog :=
  { id := 1, title := "t", description := "d", content := "c", date := 2,
    category := "general", image_url := "",
    reviews := [{ id := 10, author := "a", rating := 4, date := "D1" },
                { id := 11, author := "b", rating := 2, date := "D2" }] }

/-- A blog with an empty embedded reviews column. -/
def blogUnrated : Blog :=
  { id := 2, title := "u", description := "d", content := "c", date := 1,
    category := "general", image_url := "", reviews := [] }

/-- A database holding the two sample blogs. -/
def dbBlogs : DB := { initDB with blogs := [blogRated, blogUnrated] }

/-- The formatted form of `blogRated` produced by the blog listing. -/
def fbRated : FormattedBlog :=
  { id := 1, title := "t", description := "d", content := "c",
    category := "general", image_url := "", reviews := blogRated.reviews,
    average_rating := 3, review_count := 2, date := "DATE" }

/-- Failing input for the blog-detail handler: the schema exactly as db.js
creates it (in particular, no `blog_reviews` table), holding one blog whose
embedded reviews column is non-empty. -/
def dbDetail : DB := { initDB with blogs := [blogRated] }

/-- A sample user row (bcrypt hash abstracted as the literal "HASH"). -/
def userJane : User :=
  { id := 1, first_name := "Jane", last_name := "Doe",
    email := "jane@example.com", password := "HASH" }

/-- A database holding only `userJane`. -/
def dbJane : DB := { initDB with users := [userJane] }

/-- A well-formed donation request. -/
def donationReq1 : DonationReq :=
  { amount := 50, frequency := "one-time", email := "jane@example.com",
    cardInfo := some { cardNumber := "4111111111111111", cardType := "",
                       expiryMonth := 12, expiryYear := 2030, cvv := "123" },
    cardholderName := "Jane Doe", country := "US" }

/-- A well-formed volunteer application. -/
def volunteerReq1 : VolunteerReq :=
  { firstName := "Jane", lastName := "Doe", email := "jane@example.com",
    phone := "555", interest := "food", availability := "weekends",
    experience := "" }

/-! ### Theorems -/

/-- C5: for every request through `authenticateToken`, a missing bearer
token yields 401 with the downstream handler never invoked (the response is
the same for every handler), a token rejected by verification yields 403
with the handler never invoked, and only a verified token runs the handler
on the verified claims. -/
theorem authenticateToken_contract {α : Type} (verify : String → Option Claims)
    (authHeader : Option String) :
    (extractToken authHeader = none →
      ∀ next : Claims → AuthResp α,
        authenticateToken verify authHeader next =
          { status := 401, error := some "Access token required", body := none }) ∧
    (∀ t, extractToken authHeader = some t → verify t = none →
      ∀ next : Claims → AuthResp α,
        authenticateToken verify authHeader next =
          { status := 403, error := some "Invalid token", body := none }) ∧
    (∀ t c, extractToken authHeader = some t → verify t = some c →
      ∀ next : Claims → AuthResp α,
        authenticateToken verify authHeader next = next c) := by
  refine ⟨fun h next => ?_, fun t ht hv next => ?_, fun t c ht hv next => ?_⟩ <;>
    simp [authenticateToken, *]

/-- Witness for C5 at concrete headers: no header gives the 401 response,
a present token failing verification gives the 403 response, and a verified
token runs the handler. -/
theorem authenticateToken_contract_witness :
    authenticateToken (α := Unit) (fun _ => none) none (fun _ => ⟨200, none, some ()⟩) =
      { status := 401, error := some "Access token required", body := none } ∧
    authenticateToken (α := Unit) (fun _ => none) (some "Bearer abc")
        (fun _ => ⟨200, none, some ()⟩) =
      { status := 403, error := some "Invalid token", body := none } ∧
    authenticateToken (α := Unit) (fun t => some { userId := 1, email := t })
        (some "Bearer abc") (fun _ => ⟨200, none, some ()⟩) =
      ⟨200, none, some ()⟩ :=
  ⟨(authenticateToken_contract _ _).1 (by decide) _,
   (authenticateToken_contract _ _).2.1 "abc" (by decide) rfl _,
   (authenticateToken_contract _ _).2.2 "abc" { userId := 1, email := "abc" }
     (by decide) rfl _⟩

/-- C6: every signup request whose password differs from its confirmation
is answered 400 and leaves the database — in particular the users table —
unchanged. -/
theorem signup_password_mismatch (hashPw : String → String) (db : DB) (req : SignupReq)
    (h : req.password ≠ req.confirmPassword) :
    (signup hashPw db req).status = 400 ∧ (signup hashPw db req).db = db := by
  unfold signup
  by_cases h0 : req.firstName = "" ∨ req.lastName = "" ∨ req.email = "" ∨
      req.password = "" ∨ req.confirmPassword = ""
  · rw [if_pos h0]
    exact ⟨rfl, rfl⟩
  · rw [if_neg h0, if_pos h]
    exact ⟨rfl, rfl⟩

/-- Witness for C6: a concrete mismatching signup request against the fresh
schema is answered 400 with the database unchanged. -/
theorem signup_password_mismatch_witness :
    (signup (fun s => s) initDB
      { firstName := "Jane", lastName := "Doe", email := "jane@example.com",
        password := "longenough", confirmPassword := "different!" }).status = 400 ∧
    (signup (fun s => s) initDB
      { firstName := "Jane", lastName := "Doe", email := "jane@example.com",
        password := "longenough", confirmPassword := "different!" }).db = initDB :=
  signup_password_mismatch _ _ _ (by decide)

/-- C9: every password shorter than 8 characters is rejected with a 400 by
the signup handler (as the request's password) and by the password-change
handler (as the new password), and the users table is unchanged in both
cases. -/
theorem short_password_rejected (p : String) (hp : p.length < 8) :
    (∀ (hashPw : String → String) (db : DB) (req : SignupReq), req.password = p →
      (signup hashPw db req).status = 400 ∧ (signup hashPw db req).db.users = db.users) ∧
    (∀ (compare : String → String → Bool) (hashPw : String → String) (db : DB)
        (email cur : String),
      (updatePassword compare hashPw db email cur p).status = 400 ∧
      (updatePassword compare hashPw db email cur p).db.users = db.users) := by
  constructor
  · intro hashPw db req hreq
    subst hreq
    unfold signup
    by_cases h0 : req.firstName = "" ∨ req.lastName = "" ∨ req.email = "" ∨
        req.password = "" ∨ req.confirmPassword = ""
    · rw [if_pos h0]
      exact ⟨rfl, rfl⟩
    · rw [if_neg h0]
      by_cases h1 : req.password ≠ req.confirmPassword
      · rw [if_pos h1]
        exact ⟨rfl, rfl⟩
      · rw [if_neg h1, if_pos hp]
        exact ⟨rfl, rfl⟩
  · intro compare hashPw db email cur
    unfold updatePassword
    by_cases h0 : cur = "" ∨ p = ""
    · rw [if_pos h0]
      exact ⟨rfl, rfl⟩
    · rw [if_neg h0, if_pos hp]
      exact ⟨rfl, rfl⟩

/-- Witness for C9 with the 5-character password "short": both handlers
answer 400 and leave the users table unchanged. -/
theorem short_password_rejected_witness :
    (signup (fun s => s) dbJane
      { firstName := "A", lastName := "B", email := "a@b.com",
        password := "short", confirmPassword := "short" }).status = 400 ∧
    (signup (fun s => s) dbJane
      { firstName := "A", lastName := "B", email := "a@b.com",
        password := "short", confirmPassword := "short" }).db.users = dbJane.users ∧
    (updatePassword (fun a b => a == b) (fun s => s) dbJane
      "jane@example.com" "HASH" "short").status = 400 ∧
    (updatePassword (fun a b => a == b) (fun s => s) dbJane
      "jane@example.com" "HASH" "short").db.users = dbJane.users :=
  have h := short_password_rejected "short" (by decide)
  have h1 := h.1 (fun s => s) dbJane
    { firstName := "A", lastName := "B", email := "a@b.com",
      password := "short", confirmPassword := "short" } rfl
  have h2 := h.2 (fun a b => a == b) (fun s => s) dbJane "jane@example.com" "HASH"
  ⟨h1.1, h1.2, h2.1, h2.2⟩

/-- C3: a login with an email matching no user and a login with an existing
email but a password that does not verify produce the same response — both
are 401 with the message "Invalid email or password" — so the two failure
causes are indistinguishable to the caller. -/
theorem login_failures_indistinguishable
    (compare : String → String → Bool) (sign : Nat → String → String) (db : DB)
    (e1 p1 e2 p2 : String) (u : User)
    (h1e : e1 ≠ "") (h1p : p1 ≠ "")
    (h1 : db.users.find? (fun v => v.email = e1) = none)
    (h2e : e2 ≠ "") (h2p : p2 ≠ "")
    (h2 : db.users.find? (fun v => v.email = e2) = some u)
    (h2c : compare p2 u.password = false) :
    login compare sign db e1 p1 = login compare sign db e2 p2 ∧
    (login compare sign db e1 p1).status = 401 ∧
    (login compare sign db e1 p1).error = some "Invalid email or password" := by
  simp [login, h1, h2, h1e, h1p, h2e, h2p, h2c]

/-- Witness for C3: against a store holding only `userJane`, a login for an
unknown email and a login for Jane's email with a non-matching password
yield the same 401 "Invalid email or password" response. -/
theorem login_failures_indistinguishable_witness :
    login (fun a b => a == b) (fun _ _ => "tok") dbJane "nobody@example.com" "pw" =
      login (fun a b => a == b) (fun _ _ => "tok") dbJane "jane@example.com" "wrong" ∧
    (login (fun a b => a == b) (fun _ _ => "tok") dbJane "nobody@example.com" "pw").status = 401 ∧
    (login (fun a b => a == b) (fun _ _ => "tok") dbJane "nobody@example.com" "pw").error =
      some "Invalid email or password" :=
  login_failures_indistinguishable _ _ _ _ _ _ _ userJane
    (by decide) (by decide) (by decide) (by decide) (by decide) (by decide) (by decide)

/-- Mapping a function that fixes every member of a list is the identity. -/
theorem map_eq_self_of_mem {α : Type} (l : List α) (f : α → α)
    (h : ∀ a ∈ l, f a = a) : l.map f = l := by
  induction l with
  | nil => rfl
  | cons a l ih =>
    rw [List.map_cons, h a (by simp), ih (fun x hx => h x (by simp [hx]))]

/-- C2: every blog returned by the blog listing has `review_count` equal to
the length of its embedded reviews array and `average_rating` equal to the
sum of the ratings divided by the count (0 for an empty array); in
particular ratings [4, 2] yield average 3 with count 2, and no reviews
yield average 0. -/
theorem getBlogs_aggregates (fmt : Nat → String) (db : DB) (fb : FormattedBlog)
    (hmem : fb ∈ getBlogs fmt db) :
    fb.review_count = fb.reviews.length ∧
    fb.average_rating = (if fb.reviews.length = 0 then 0
      else (fb.reviews.map (fun r => r.rating)).sum / (fb.reviews.length : ℚ)) ∧
    ((fb.reviews.map (fun r => r.rating)) = [4, 2] →
      fb.average_rating = 3 ∧ fb.review_count = 2) ∧
    (fb.reviews = [] → fb.average_rating = 0) := by
  have hA : ∀ l : List Review, averageRating l =
      (if l.length = 0 then 0 else (l.map (fun r => r.rating)).sum / (l.length : ℚ)) := by
    intro l
    rw [averageRating]
    rcases Nat.eq_zero_or_pos l.length with h | h
    · simp [h]
    · rw [if_pos h, if_neg (by omega)]
  obtain ⟨b, hb, rfl⟩ := List.mem_map.mp hmem
  refine ⟨rfl, hA b.reviews, fun hmap => ?_, fun hnil => ?_⟩
  · have hlen : b.reviews.length = 2 := by
      have := congrArg List.length hmap
      simpa using this
    refine ⟨?_, hlen⟩
    show averageRating b.reviews = 3
    rw [averageRating, if_pos (by omega), hmap, hlen]
    norm_num
  · have hnil' : b.reviews = [] := hnil
    show averageRating b.reviews = 0
    rw [averageRating, hnil']
    simp

/-- Witness for C2: in the listing of `dbBlogs`, the blog with embedded
ratings 4 and 2 appears formatted with average 3 and count 2. -/
theorem getBlogs_aggregates_witness :
    fbRated ∈ getBlogs (fun _ => "DATE") dbBlogs ∧
    fbRated.average_rating = 3 ∧ fbRated.review_count = 2 :=
  have havg : averageRating [{ id := 10, author := "a", rating := 4, date := "D1" },
      { id := 11, author := "b", rating := 2, date := "D2" }] = 3 := by
    rw [averageRating]
    norm_num
  have hmem : fbRated ∈ getBlogs (fun _ => "DATE") dbBlogs := by
    rw [getBlogs]
    refine List.mem_map.mpr ⟨blogRated, ?_, ?_⟩
    · rw [show sortByDateDesc dbBlogs.blogs = [blogRated, blogUnrated] from rfl]
      exact List.mem_cons_self _ _
    · simp [fbRated, blogRated, havg]
  have h := (getBlogs_aggregates (fun _ => "DATE") dbBlogs fbRated hmem).2.2.1
    (by rw [show fbRated.reviews = blogRated.reviews from rfl]; norm_num [blogRated])
  ⟨hmem, h.1, h.2⟩

/-- C10: a review with a valid rating posted against an id matching no blog
row is not answered 404: the handler responds 201 with the synthesized
single-element review list, average equal to the submitted rating and count
1, and the database is unchanged. -/
theorem addReview_missing_blog (db : DB) (blogId : Nat) (author : String)
    (r : ℚ) (now : Nat) (today : String)
    (hr1 : 1 ≤ r) (hr5 : r ≤ 5)
    (habs : ∀ b ∈ db.blogs, b.id ≠ blogId) :
    (addReview db blogId author (some r) now today).status = 201 ∧
    (addReview db blogId author (some r) now today).body =
      some { reviews := [{ id := now,
                           author := if author = "" then "Anonymous" else author,
                           rating := r, date := today }],
             average_rating := r, review_count := 1 } ∧
    (addReview db blogId author (some r) now today).db = db := by
  have hfind : db.blogs.find? (fun b => b.id = blogId) = none := by
    rw [List.find?_eq_none]
    intro b hb
    simpa using habs b hb
  have hnotr : ¬(r < 1 ∨ 5 < r) := by
    push_neg
    exact ⟨hr1, hr5⟩
  simp only [addReview]
  rw [if_neg hnotr, hfind]
  refine ⟨rfl, ?_, ?_⟩
  · simp
  · show { db with blogs := _ } = db
    have hmap : db.blogs.map (fun b =>
        if b.id = blogId then { b with reviews := [] ++
          [{ id := now, author := if author = "" then "Anonymous" else author,
             rating := r, date := today }] } else b) = db.blogs := by
      apply map_eq_self_of_mem
      intro b hb
      rw [if_neg (by simpa using habs b hb)]
    rw [hmap]

/-- Witness for C10: posting rating 5 against id 7 in the fresh schema (no
blogs at all) answers 201 with count 1 and average 5 and leaves the
database unchanged. -/
theorem addReview_missing_blog_witness :
    (addReview initDB 7 "" (some 5) 99 "T").status = 201 ∧
    (addReview initDB 7 "" (some 5) 99 "T").body =
      some { reviews := [{ id := 99, author := "Anonymous", rating := 5, date := "T" }],
             average_rating := 5, review_count := 1 } ∧
    (addReview initDB 7 "" (some 5) 99 "T").db = initDB :=
  have h := addReview_missing_blog initDB 7 "" 5 99 "T" (by norm_num) (by norm_num)
    (by intro b hb; cases hb)
  ⟨h.1, by rw [h.2.1]; simp, h.2.2⟩

/-- C1: for every donation request passing field validation, the two inserts
are atomic: when either insert fails the database afterward equals the
database before (in particular a PaymentMethod failure leaves no Donation
row from the request) and the handler answers 500; when both succeed the
handler answers 201 and exactly the Donation row and its PaymentMethod row
are appended; on every such path the acquired connection is released. -/
theorem createDonation_atomic (hashD : String → String) (db : DB) (req : DonationReq)
    (fd fp : Bool)
    (hvalid : ¬(req.amount = 0 ∨ req.email = "" ∨ req.cardInfo = none ∨
      req.cardholderName = "" ∨ req.country = "")) :
    ((fd = true ∨ fp = true) →
      (createDonation hashD db req fd fp).db = db ∧
      (createDonation hashD db req fd fp).status = 500) ∧
    (fd = false → fp = false →
      (createDonation hashD db req fd fp).status = 201 ∧
      ∃ d pm, (createDonation hashD db req fd fp).db.donations = db.donations ++ [d] ∧
        (createDonation hashD db req fd fp).db.paymentMethods = db.paymentMethods ++ [pm] ∧
        pm.donation_id = d.id) ∧
    (createDonation hashD db req fd fp).connAcquired = true ∧
    (createDonation hashD db req fd fp).connReleased = true := by
  obtain ⟨ci, hcieq⟩ : ∃ ci, req.cardInfo = some ci := by
    push_neg at hvalid
    exact Option.ne_none_iff_exists'.mp hvalid.2.2.1
  have hvalid' : ¬(req.amount = 0 ∨ req.email = "" ∨ req.cardInfo = none ∨
      req.cardholderName = "" ∨ req.country = "") := by
    push_neg at hvalid ⊢
    exact hvalid
  unfold createDonation
  rw [if_neg hvalid', hcieq]
  cases fd
  · cases fp
    · refine ⟨fun h => ?_, fun _ _ => ⟨rfl, _, _, rfl, rfl, rfl⟩, rfl, rfl⟩
      rcases h with h | h <;> exact absurd h (by simp)
    · exact ⟨fun _ => ⟨rfl, rfl⟩, fun _ h => absurd h (by simp), rfl, rfl⟩
  · exact ⟨fun _ => ⟨rfl, rfl⟩, fun h _ => absurd h (by simp), rfl, rfl⟩

/-- Witness for C1: a valid donation request whose PaymentMethod insert is
forced to fail leaves the fresh schema unchanged, answers 500, and the
connection is released. -/
theorem createDonation_atomic_witness :
    (createDonation (fun s => s) initDB donationReq1 false true).db = initDB ∧
    (createDonation (fun s => s) initDB donationReq1 false true).status = 500 ∧
    (createDonation (fun s => s) initDB donationReq1 false true).connReleased = true :=
  have h := createDonation_atomic (fun s => s) initDB donationReq1 false true (by decide)
  ⟨(h.1 (Or.inr rfl)).1, (h.1 (Or.inr rfl)).2, h.2.2.2⟩

/-- C8: a valid first volunteer submission is answered 201 and inserts one
row; an identical second submission hits the unique email key, is mapped to
the distinguished 400 "Email already exists" response, changes nothing, and
the table still holds exactly one row for that email. -/
theorem createVolunteer_duplicate (db : DB) (req : VolunteerReq)
    (hvalid : ¬(req.firstName = "" ∨ req.lastName = "" ∨ req.email = "" ∨
      req.phone = "" ∨ req.interest = "" ∨ req.availability = ""))
    (hnew : ∀ v ∈ db.volunteers, v.email ≠ req.email) :
    (createVolunteer db req).status = 201 ∧
    ((createVolunteer db req).db.volunteers.filter
      (fun v => v.email = req.email)).length = 1 ∧
    (createVolunteer (createVolunteer db req).db req).status = 400 ∧
    (createVolunteer (createVolunteer db req).db req).error = some "Email already exists" ∧
    (createVolunteer (createVolunteer db req).db req).db = (createVolunteer db req).db ∧
    ((createVolunteer (createVolunteer db req).db req).db.volunteers.filter
      (fun v => v.email = req.email)).length = 1 := by
  have hany : db.volunteers.any (fun v => v.email = req.email) = false := by
    rw [List.any_eq_false]
    intro v hv
    simp [hnew v hv]
  have h1 : createVolunteer db req =
      { status := 201, error := none, id := some (db.volunteers.length + 1),
        db := { db with volunteers := db.volunteers ++
          [{ id := db.volunteers.length + 1, first_name := req.firstName,
             last_name := req.lastName, email := req.email, phone := req.phone,
             interest_area := req.interest, availability := req.availability,
             experience := if req.experience = "" then none
                           else some req.experience }] } } := by
    unfold createVolunteer
    rw [if_neg hvalid]
    simp [hany]
  have hfilter0 : db.volunteers.filter (fun v => v.email = req.email) = [] := by
    rw [List.filter_eq_nil_iff]
    intro v hv
    simp [hnew v hv]
  have h2 : createVolunteer (createVolunteer db req).db req =
      { status := 400, error := some "Email already exists", id := none,
        db := (createVolunteer db req).db } := by
    rw [h1]
    unfold createVolunteer
    rw [if_neg hvalid]
    simp [List.any_append]
  rw [h2, h1]
  refine ⟨rfl, ?_, rfl, rfl, rfl, ?_⟩ <;>
    simp [List.filter_append, hfilter0]

/-- Witness for C8: submitting `volunteerReq1` twice against the fresh
schema: 201 then 400 "Email already exists" with exactly one stored row for
the email. -/
theorem createVolunteer_duplicate_witness :
    (createVolunteer initDB volunteerReq1).status = 201 ∧
    (createVolunteer (createVolunteer initDB volunteerReq1).db volunteerReq1).status = 400 ∧
    (createVolunteer (createVolunteer initDB volunteerReq1).db volunteerReq1).error =
      some "Email already exists" ∧
    ((createVolunteer (createVolunteer initDB volunteerReq1).db volunteerReq1).db.volunteers.filter
      (fun v => v.email = volunteerReq1.email)).length = 1 :=
  have h := createVolunteer_duplicate initDB volunteerReq1 (by decide)
    (by intro v hv; cases hv)
  ⟨h.1, h.2.2.1, h.2.2.2.1, h.2.2.2.2.2⟩

/-- The UPDATE of the bio upsert rewrites only the `bio` field, so the
number of rows per user id is unchanged. -/
theorem filter_length_map_setBio (l : List Bio) (uid : Nat) (t : String) (w : Nat) :
    ((l.map (fun b => if some b.user_id = some uid then { b with bio := t } else b)).filter
      (fun b => b.user_id = w)).length =
    (l.filter (fun b => b.user_id = w)).length := by
  induction l with
  | nil => rfl
  | cons b l ih =>
    simp only [List.map_cons, List.filter_cons]
    have hid : (if some b.user_id = some uid then { b with bio := t } else b).user_id
        = b.user_id := by
      by_cases h : some b.user_id = some uid
      · rw [if_pos h]
      · rw [if_neg h]
    by_cases h2 : b.user_id = w
    · rw [if_pos (decide_eq_true (hid.trans h2)), if_pos (decide_eq_true h2)]
      simp only [List.length_cons, ih]
    · rw [if_neg (fun hc => h2 (hid.symm.trans (of_decide_eq_true hc))),
          if_neg (fun hc => h2 (of_decide_eq_true hc))]
      exact ih

/-- One run of the bio upsert for an existing user: the users table is
untouched and the user's bio-row count becomes `max old 1` (an INSERT when
no row existed, an in-place UPDATE otherwise). -/
theorem updateBio_step (db : DB) (email t : String) (u : User)
    (hu : db.users.find? (fun v => v.email = email) = some u) :
    (updateBio db email t).db.users = db.users ∧
    ((updateBio db email t).db.bios.filter (fun b => b.user_id = u.id)).length =
      max (db.bios.filter (fun b => b.user_id = u.id)).length 1 := by
  simp only [updateBio, hu, Option.map_some']
  by_cases h : (db.bios.filter (fun b => b.user_id = u.id)).length > 0
  · rw [if_pos h]
    refine ⟨rfl, ?_⟩
    rw [filter_length_map_setBio]
    omega
  · rw [if_neg h]
    refine ⟨rfl, ?_⟩
    have hnil : db.bios.filter (fun b => b.user_id = u.id) = [] := by
      cases hf : db.bios.filter (fun b => b.user_id = u.id) with
      | nil => rfl
      | cons x xs => rw [hf] at h; exact absurd (by simp) h
    rw [List.filter_append, hnil]
    simp

/-- C7: for every user, running the same bio update twice leaves exactly
one Bio row for that user — never two. The hypothesis `huniq` is the unique
key on `bios.user_id` from the schema (at most one row per user). -/
theorem updateBio_idempotent (db : DB) (email bioText : String) (u : User)
    (hu : db.users.find? (fun v => v.email = email) = some u)
    (huniq : (db.bios.filter (fun b => b.user_id = u.id)).length ≤ 1) :
    ((updateBio (updateBio db email bioText).db email bioText).db.bios.filter
      (fun b => b.user_id = u.id)).length = 1 := by
  obtain ⟨hu1, hc1⟩ := updateBio_step db email bioText u hu
  have hu' : (updateBio db email bioText).db.users.find? (fun v => v.email = email) =
      some u := by
    rw [hu1, hu]
  obtain ⟨hu2, hc2⟩ := updateBio_step (updateBio db email bioText).db email bioText u hu'
  rw [hc2, hc1]
  omega

/-- Witness for C7: updating Jane's bio twice from a state with no bio row
leaves exactly one row for her user id. -/
theorem updateBio_idempotent_witness :
    ((updateBio (updateBio dbJane "jane@example.com" "hello").db
      "jane@example.com" "hello").db.bios.filter
      (fun b => b.user_id = userJane.id)).length = 1 :=
  updateBio_idempotent dbJane "jane@example.com" "hello" userJane
    (by decide) (by decide)

/-- C4, evaluated at the failing input: on the schema exactly as db.js
creates it — which never creates a `blog_reviews` table — with a stored
blog (id 1) whose embedded reviews column is non-empty, the blog row is
found, yet the handler answers 500 and attaches no reviews: the detail
route reads reviews from the separate `blog_reviews` table (server.js line
295), never from the embedded column. -/
theorem getBlogById_ignores_embedded_reviews :
    dbDetail.blogs.find? (fun b => b.id = 1) = some blogRated ∧
    blogRated.reviews ≠ [] ∧
    (getBlogById dbDetail 1).status = 500 ∧
    (getBlogById dbDetail 1).reviews = none ∧
    (getBlogById dbDetail 1).error = some "Failed to fetch blog" := by
  refine ⟨?_, ?_, ?_, ?_, ?_⟩ <;> decide

end PPF
